import Mathlib

/-!
Formal model of the crypto-agent signal-evaluation engine.

This file is a shallow embedding of the core logic of the repository:
the indicator library (`data_fetcher.py`), the composite scorer and the
three pattern detectors (`signal_scoring.py`), the alert cooldown gate
and ledger updates (`discord_alert.py`), and the per-asset detector
state (`state_manager.py`).

Embedding conventions:
* Python floats are modelled as `ℚ` (the code performs only field
  arithmetic and comparisons; no transcendental operations occur except
  the square root inside Bollinger bands, which is abstracted as an
  explicit function parameter).
* `datetime` values are modelled as `ℚ` counting seconds; the code's
  `(now - last).total_seconds() / 3600` becomes `(now - last) / 3600`.
* Python `None` / missing dictionary keys become `Option`.
* Configuration globals (`config.py`) become explicit parameters or
  named constants.
* The outcome of the HTTP webhook post inside `_send_discord_message`
  is modelled as an explicit boolean parameter `dispatchOk`.
* The per-coin mutable dictionaries of `state_manager.py` are modelled
  as a per-coin `TSState` record threaded through the trailing-stop
  detector; the per-category cooldown dictionaries of `discord_alert.py`
  are modelled as association lists from alert keys to timestamps.
-/

/-! ## Data model (`fetch_data` result, sentiment, macro snapshots) -/

/-- The `bollinger_bands` dictionary as it appears in the `fetch_data`
result: each band may individually be `None` (the failure path in
`fetch_data` returns a dict of three `None`s). -/
structure BollingerBands where
  upper : Option ℚ
  middle : Option ℚ
  lower : Option ℚ
deriving DecidableEq

/-- The technical-indicator dictionary produced by `fetch_data`. -/
structure MarketData where
  price : Option ℚ
  volume : Option ℚ
  rsi : Option ℚ
  ema20 : Option ℚ
  ema50 : Option ℚ
  ema200 : Option ℚ
  bollinger_bands : Option BollingerBands
  price_change_7d_percent : Option ℚ
  price_change_30d_percent : Option ℚ
deriving DecidableEq

/-- The sentiment dictionary produced by `analyze_sentiment`. -/
structure Sentiment where
  fgi_score : Option ℚ
  fgi_category : Option String
  google_trends_interest : Option ℚ
deriving DecidableEq

/-- The macro-trends dictionary assembled in `main.py`. -/
structure MacroTrends where
  btc_current_price : Option ℚ
  btc_ath : Option ℚ
  eth_current_price : Option ℚ
  eth_ath : Option ℚ
  btc_dominance : Option ℚ
deriving DecidableEq

/-! ## Indicator library (`data_fetcher.py`) -/

/-- Last value of pandas `ewm(adjust=False).mean()` over a series:
seeded by the first sample, then `y ← (1-α)·y + α·x`. `none` on the
empty series (pandas would give an empty series). -/
def ewm_last (alpha : ℚ) : List ℚ → Option ℚ
  | [] => none
  | x :: xs => some (xs.foldl (fun y xi => (1 - alpha) * y + alpha * xi) x)

/-- Consecutive differences, pandas `Series.diff()` without the leading
`NaN` entry. -/
def price_deltas (prices : List ℚ) : List ℚ :=
  List.zipWith (fun b a => b - a) prices.tail prices

/-- `_calculate_rsi` from `data_fetcher.py`.  Guard: fewer than
`window + 1` samples yields `none`.  The leading `NaN` of
`prices.diff()` becomes `0` in both the gain and the loss series
(pandas `where(delta > 0, 0)` maps `NaN` to `0`), hence the `0 ::`.
`ewm(com=window-1, adjust=False)` has smoothing factor `1/window`.
When the smoothed loss is exactly zero, relative strength is infinite
and `100 - 100/(1+rs)` evaluates to `100`. -/
def calculate_rsi (prices : List ℚ) (window : ℕ) : Option ℚ :=
  if prices.length < window + 1 then none
  else
    let deltas := price_deltas prices
    let gains := 0 :: deltas.map (fun d => if 0 < d then d else 0)
    let losses := 0 :: deltas.map (fun d => if d < 0 then -d else 0)
    let avg_gain := (ewm_last (1 / window) gains).getD 0
    let avg_loss := (ewm_last (1 / window) losses).getD 0
    if avg_loss = 0 then some 100
    else
      let rs := avg_gain / avg_loss
      some (100 - 100 / (1 + rs))

/-- `_calculate_ema` from `data_fetcher.py`.  Guard: fewer than
`window` samples yields `none`.  `ewm(span=window, adjust=False)` has
smoothing factor `2/(window+1)`, seeded by the first value. -/
def calculate_ema (prices : List ℚ) (window : ℕ) : Option ℚ :=
  if prices.length < window then none
  else ewm_last (2 / (window + 1)) prices

/-- Bollinger-band result of `_calculate_bollinger_bands` (all three
bands present whenever the guard passes). -/
structure BollingerRaw where
  upper : ℚ
  middle : ℚ
  lower : ℚ
deriving DecidableEq

/-- `_calculate_bollinger_bands` from `data_fetcher.py`.  Guard: fewer
than `window` samples yields `none`.  `rolling(window).mean().iloc[-1]`
is the mean of the last `window` samples; `rolling(window).std()` is
the sample standard deviation (ddof = 1).  The numeric square root is
abstracted as the parameter `sqrtFn`. -/
def calculate_bollinger_bands (sqrtFn : ℚ → ℚ) (prices : List ℚ)
    (window : ℕ) (num_std_dev : ℚ) : Option BollingerRaw :=
  if prices.length < window then none
  else
    let tail := prices.drop (prices.length - window)
    let sma := tail.sum / window
    let variance := (tail.map (fun x => (x - sma) ^ 2)).sum / ((window : ℚ) - 1)
    let sd := sqrtFn variance
    some ⟨sma + sd * num_std_dev, sma, sma - sd * num_std_dev⟩

/-! ## Composite scorer (`score_signal` in `signal_scoring.py`) -/

/-- `config.SIGNAL_SCORING_WEIGHTS`, one field per named factor. -/
structure SignalWeights where
  rsi : ℚ
  ema_crossover : ℚ
  ema_price_position : ℚ
  bollinger_bands : ℚ
  volume_spike : ℚ
  fgi_sentiment : ℚ
  google_trends : ℚ
  btc_eth_ath_proximity : ℚ
  btc_dominance : ℚ
deriving DecidableEq

/-- The weight values configured in `config.py`. -/
def SIGNAL_SCORING_WEIGHTS : SignalWeights :=
  ⟨15/100, 20/100, 20/100, 10/100, 10/100, 10/100, 5/100, 5/100, 5/100⟩

/-- `config.VOLUME_SPIKE_MULTIPLIER`. -/
def VOLUME_SPIKE_MULTIPLIER : ℚ := 3/2

/-- Factor 1 of `score_signal` (lines 44-51): signed RSI distance from
the neutral 50 mark.  `rsi <= 50` adds, `rsi > 50` subtracts. -/
def rsi_factor (w : SignalWeights) (rsi : Option ℚ) : ℚ :=
  match rsi with
  | none => 0
  | some r =>
    if r ≤ 50 then ((50 - r) * (1/2)) * (w.rsi * 100) / 25
    else -(((r - 50) * (1/2)) * (w.rsi * 100) / 25)

/-- Factor 2 of `score_signal` (lines 53-60): EMA20/EMA50 crossover. -/
def ema_crossover_factor (w : SignalWeights) (ema20 ema50 : Option ℚ) : ℚ :=
  match ema20, ema50 with
  | some e20, some e50 =>
    if e50 < e20 then 15 * w.ema_crossover
    else if e20 < e50 then -(15 * w.ema_crossover)
    else 0
  | _, _ => 0

/-- Factor 3 of `score_signal` (lines 62-68): price position relative
to both EMAs. -/
def ema_price_position_factor (w : SignalWeights)
    (price ema20 ema50 : Option ℚ) : ℚ :=
  match price, ema20, ema50 with
  | some p, some e20, some e50 =>
    if e20 < p ∧ e50 < p then 10 * w.ema_price_position
    else if p < e20 ∧ p < e50 then -(10 * w.ema_price_position)
    else 0
  | _, _, _ => 0

/-- Factor 4 of `score_signal` (lines 70-84): position inside the
Bollinger band range.  The Python guard `if bb and ...` (a falsy empty
or absent dict) is the `none` case. -/
def bollinger_factor (w : SignalWeights) (bb : Option BollingerBands)
    (price : Option ℚ) : ℚ :=
  match bb, price with
  | some b, some p =>
    match b.upper, b.lower with
    | some u, some l =>
      let range_bb := u - l
      if 0 < range_bb then
        let dist_from_lower := (p - l) / range_bb
        let dist_from_upper := (u - p) / range_bb
        if dist_from_lower < 1/10 then 15 * w.bollinger_bands
        else if dist_from_upper < 1/10 then -(15 * w.bollinger_bands)
        else 0
      else 0
    | _, _ => 0
  | _, _ => 0

/-- Factor 5 of `score_signal` (lines 86-99): dynamic volume spike when
a historical volume column is available (its last 20 samples are
averaged; an empty mean is pandas `NaN`, which fails the `> 0` guard
exactly as `0` does here), else the absolute-volume fallback. -/
def volume_factor (w : SignalWeights) (mult : ℚ) (volume : Option ℚ)
    (historical_volumes : Option (List ℚ)) : ℚ :=
  match volume, historical_volumes with
  | some v, some hist =>
    let tail := hist.drop (hist.length - 20)
    let volume_sma20 := if tail.length = 0 then 0 else tail.sum / tail.length
    if 0 < volume_sma20 then
      if volume_sma20 * mult < v then 10 * w.volume_spike else 0
    else 0
  | some v, none => if 1000000000 < v then 5 * w.volume_spike else 0
  | none, _ => 0

/-- Factor 6 of `score_signal` (lines 101-113): contrarian fear/greed
index tiers. -/
def fgi_factor (w : SignalWeights) (fgi : Option ℚ) : ℚ :=
  match fgi with
  | none => 0
  | some f =>
    if f ≤ 20 then 15 * w.fgi_sentiment
    else if f ≤ 40 then 5 * w.fgi_sentiment
    else if 80 ≤ f then -(15 * w.fgi_sentiment)
    else if 60 ≤ f then -(5 * w.fgi_sentiment)
    else 0

/-- Factor 7 of `score_signal` (lines 115-123): public-interest tiers. -/
def google_trends_factor (w : SignalWeights) (interest : Option ℚ) : ℚ :=
  match interest with
  | none => 0
  | some g =>
    if 70 ≤ g then 10 * w.google_trends
    else if 50 ≤ g then 5 * w.google_trends
    else if g ≤ 30 then -(5 * w.google_trends)
    else 0

/-- Factor 8 of `score_signal` (lines 127-145), one reference asset at
a time: all-time-high proximity tiers.  Applied once for BTC and once
for ETH, both under the same weight. -/
def ath_proximity_factor (w : SignalWeights)
    (current ath : Option ℚ) : ℚ :=
  match current, ath with
  | some c, some a =>
    if 0 < a then
      let proximity := (c / a) * 100
      if 98 ≤ proximity then 10 * w.btc_eth_ath_proximity
      else if 90 ≤ proximity then 5 * w.btc_eth_ath_proximity
      else 0
    else 0
  | _, _ => 0

/-- Factor 9 of `score_signal` (lines 147-153): BTC dominance tiers. -/
def btc_dominance_factor (w : SignalWeights) (dominance : Option ℚ) : ℚ :=
  match dominance with
  | none => 0
  | some d =>
    if d < 50 then 10 * w.btc_dominance
    else if 60 < d then -(10 * w.btc_dominance)
    else 0

/-- `score_signal` from `signal_scoring.py`: starts at the neutral 50,
adds each factor's contribution in source order, and clamps the result
to [0, 100] (`max(0, min(100, score))`). -/
def score_signal (data : MarketData) (sentiment : Sentiment)
    (macro_trends : MacroTrends) (historical_volumes : Option (List ℚ))
    (w : SignalWeights) : ℚ :=
  let score := 50
    + rsi_factor w data.rsi
    + ema_crossover_factor w data.ema20 data.ema50
    + ema_price_position_factor w data.price data.ema20 data.ema50
    + bollinger_factor w data.bollinger_bands data.price
    + volume_factor w VOLUME_SPIKE_MULTIPLIER data.volume historical_volumes
    + fgi_factor w sentiment.fgi_score
    + google_trends_factor w sentiment.google_trends_interest
    + ath_proximity_factor w macro_trends.btc_current_price macro_trends.btc_ath
    + ath_proximity_factor w macro_trends.eth_current_price macro_trends.eth_ath
    + btc_dominance_factor w macro_trends.btc_dominance
  max 0 (min 100 score)

/-- A `MarketData` record with every optional field absent (the shape
`fetch_data` returns when no historical data could be retrieved has
this value once its all-`None` Bollinger dict is read through
`bb.get`). -/
def emptyMarketData : MarketData :=
  ⟨none, none, none, none, none, none, none, none, none⟩

/-- A `Sentiment` record with every field absent. -/
def emptySentiment : Sentiment := ⟨none, none, none⟩

/-- A `MacroTrends` record with every field absent. -/
def emptyMacroTrends : MacroTrends := ⟨none, none, none, none, none⟩

/-! ## Top detection (`check_for_top_detection` in `signal_scoring.py`) -/

/-- `check_for_top_detection`: fires when RSI is very overbought, price
is at least 1.5x the 200-day EMA, and both trailing percent changes are
parabolic.  The function reads `sentiment['fgi_score']` only to decide
which confirmation message to print — lines 215-221 return the same
`(True, parabolic_factor)` tuple on both branches — so the sentiment
argument does not influence the returned value. -/
def check_for_top_detection (data : MarketData) ( _sentiment : Sentiment) :
    Bool × ℚ :=
  let is_rsi_overbought : Bool :=
    match data.rsi with
    | some r => if 80 < r then true else false
    | none => false
  let is_above_ema200 : Bool :=
    match data.price, data.ema200 with
    | some p, some e200 =>
      if 0 < e200 then (if (3/2 : ℚ) ≤ p / e200 then true else false) else false
    | _, _ => false
  let parabolic : Bool × ℚ :=
    match data.price_change_7d_percent, data.price_change_30d_percent with
    | some c7, some c30 =>
      if 50 < c7 ∧ 100 < c30 then (true, (c7 + c30) / 200) else (false, 0)
    | _, _ => (false, 0)
  if is_rsi_overbought && is_above_ema200 && parabolic.1 then
    (true, parabolic.2)
  else (false, 0)

/-! ## Dip-buy detection (`check_for_dip_buy` in `signal_scoring.py`) -/

/-- Condition 1 of `check_for_dip_buy`: RSI oversold. -/
def is_rsi_oversold (data : MarketData) : Bool :=
  match data.rsi with
  | some r => if r < 40 then true else false
  | none => false

/-- Condition 2 of `check_for_dip_buy`: price within 5% of EMA20 or
EMA50, or strictly below both. -/
def is_near_emas (data : MarketData) : Bool :=
  match data.price, data.ema20, data.ema50 with
  | some p, some e20, some e50 =>
    (if (p ≤ e20 * (105/100) ∧ e20 * (95/100) ≤ p) ∨
        (p ≤ e50 * (105/100) ∧ e50 * (95/100) ≤ p) then true else false) ||
    (if p < e20 ∧ p < e50 then true else false)
  | _, _, _ => false

/-- Condition 3 of `check_for_dip_buy`: price within 2% above the lower
Bollinger band (`bb.get('lower')` on a missing or all-`None` dict is
absent). -/
def is_near_bb_lower (data : MarketData) : Bool :=
  match data.price, data.bollinger_bands.bind BollingerBands.lower with
  | some p, some l => if 0 < l then (if p ≤ l * (102/100) then true else false) else false
  | _, _ => false

/-- Condition 4 of `check_for_dip_buy`: trailing-7-sample change
negative but above -20%. -/
def is_recent_dip (data : MarketData) : Bool :=
  match data.price_change_7d_percent with
  | some c => if c < 0 ∧ -20 < c then true else false
  | none => false

/-- Condition 5 of `check_for_dip_buy`: fear/greed at most 40. -/
def is_fgi_fearful (sentiment : Sentiment) : Bool :=
  match sentiment.fgi_score with
  | some f => if f ≤ 40 then true else false
  | none => false

/-- `conditions_met` tally of `check_for_dip_buy` (lines 287-292). -/
def dip_conditions_met (data : MarketData) (sentiment : Sentiment) : ℕ :=
  (if is_rsi_oversold data then 1 else 0)
  + (if is_near_emas data then 1 else 0)
  + (if is_near_bb_lower data then 1 else 0)
  + (if is_recent_dip data then 1 else 0)
  + (if is_fgi_fearful sentiment then 1 else 0)

/-- Outcome of a Python call that either returns a value or raises an
exception. -/
inductive PyOutcome (α : Type) where
  | ok (val : α)
  | raised
deriving DecidableEq

/-- `check_for_dip_buy` from `signal_scoring.py`: with fewer than 3 of
the 5 conditions met it returns `False` (line 298).  With at least 3
met, the source first executes the detection log line (line 295),
whose f-string interpolations `rsi:.2f`, `price/ema20:.2f`,
`bb_lower:.2f`, `price_change_7d:.2f` and `fgi_score:.1f` raise
`TypeError` whenever `rsi`, `price`, `ema20`, `bb_lower`,
`price_change_7d` or `fgi_score` is `None` (the 3-of-5 rule does not
guarantee their presence), and `ZeroDivisionError` when `ema20` is
zero; only when the log line succeeds does it return `True`
(line 296). -/
def check_for_dip_buy (data : MarketData) (sentiment : Sentiment) :
    PyOutcome Bool :=
  if 3 ≤ dip_conditions_met data sentiment then
    match data.rsi, data.price, data.ema20,
        data.bollinger_bands.bind BollingerBands.lower,
        data.price_change_7d_percent, sentiment.fgi_score with
    | some _, some _, some e20, some _, some _, some _ =>
      if e20 = 0 then PyOutcome.raised else PyOutcome.ok true
    | _, _, _, _, _, _ => PyOutcome.raised
  else PyOutcome.ok false

/-! ## Trailing stop (`check_for_trailing_stop` + `state_manager.py`) -/

/-- The `'above'` / `'below'` strings stored by
`set_ema50_position`. -/
inductive EmaPos where
  | above
  | below
deriving DecidableEq

/-- The trigger-type string in the result tuple of
`check_for_trailing_stop`. -/
inductive TSTrigger where
  | athDrop
  | closeBelowEma50
deriving DecidableEq

/-- The per-coin slice of the persistent state kept by
`state_manager.py`: `_last_observed_dynamic_ath[coin]` and
`_last_ema50_position[coin]`. -/
structure TSState where
  dynamic_ath : Option ℚ
  ema50_pos : Option EmaPos
deriving DecidableEq

/-- The per-coin entry of `config.TRAILING_STOP_ALERTS`. -/
structure TSConfig where
  percent_drop_from_ath : Option ℚ
  close_below_50d_ema : Bool
deriving DecidableEq

/-- The `(bool, str, float)` result tuple of
`check_for_trailing_stop`. -/
structure TSResult where
  fired : Bool
  trigger : Option TSTrigger
  value : ℚ
deriving DecidableEq

/-- The ATH-drop section of `check_for_trailing_stop` (lines 326-352).
Returns `some` result on the early `return True, "ATH_DROP", drop`
path, `none` when control falls through to the EMA section, together
with the updated state.  When no dynamic ATH is recorded it is
initialized to the current price and the same `if/elif` chain then runs
with that value (so a non-positive threshold would fire immediately
with drop 0). -/
def ts_ath_step (percent_drop_threshold : Option ℚ) (price : ℚ)
    (st : TSState) : Option TSResult × TSState :=
  match percent_drop_threshold with
  | none => (none, st)
  | some threshold =>
    match st.dynamic_ath with
    | none =>
      let st1 : TSState := { st with dynamic_ath := some price }
      if 0 < price then
        let drop := (price - price) / price * 100
        if threshold ≤ drop then (some ⟨true, some TSTrigger.athDrop, drop⟩, st1)
        else (none, st1)
      else (none, st1)
    | some a =>
      if a < price then (none, { st with dynamic_ath := some price })
      else if 0 < a then
        let drop := (a - price) / a * 100
        if threshold ≤ drop then (some ⟨true, some TSTrigger.athDrop, drop⟩, st)
        else (none, st)
      else (none, st)

/-- The EMA50-cross section of `check_for_trailing_stop`
(lines 354-368): computes the current position (`above` iff
`price >= ema50`), fires only on the exact above-to-below transition,
and stores the current position in every case in which the section's
guard passes. -/
def ts_ema_step (close_below_ema_enabled : Bool) (price : ℚ)
    (ema50 : Option ℚ) (st : TSState) : TSResult × TSState :=
  match close_below_ema_enabled, ema50 with
  | true, some e =>
    let cur : EmaPos := if e ≤ price then EmaPos.above else EmaPos.below
    match st.ema50_pos with
    | some EmaPos.above =>
      if cur = EmaPos.below then
        (⟨true, some TSTrigger.closeBelowEma50, e⟩, { st with ema50_pos := some cur })
      else (⟨false, none, 0⟩, { st with ema50_pos := some cur })
    | _ => (⟨false, none, 0⟩, { st with ema50_pos := some cur })
  | _, _ => (⟨false, none, 0⟩, st)

/-- `check_for_trailing_stop` from `signal_scoring.py` for one coin:
returns immediately when the price is absent; otherwise runs the
ATH-drop section, whose early `return` skips the EMA section, and then
the EMA50-cross section. -/
def check_for_trailing_stop (cfg : TSConfig) (price ema50 : Option ℚ)
    (st : TSState) : TSResult × TSState :=
  match price with
  | none => (⟨false, none, 0⟩, st)
  | some p =>
    match ts_ath_step cfg.percent_drop_from_ath p st with
    | (some res, st1) => (res, st1)
    | (none, st1) => ts_ema_step cfg.close_below_50d_ema p ema50 st1

/-- The stored dynamic ATH after each step of a sequence of
`check_for_trailing_stop` calls (no EMA50 data supplied). -/
def ath_trace (cfg : TSConfig) (st : TSState) : List ℚ → List (Option ℚ)
  | [] => []
  | p :: ps =>
    let st1 := (check_for_trailing_stop cfg (some p) none st).2
    st1.dynamic_ath :: ath_trace cfg st1 ps

/-! ## Alert gate and senders (`discord_alert.py`) -/

/-- A cooldown ledger: one of the module-level `last_*_alert_times`
dictionaries, as an association list from alert keys to the timestamp
(in seconds) of the last successful dispatch.  Insertion conses in
front; `ledger_lookup` returns the most recent binding, which matches
Python dict-assignment semantics. -/
def Ledger (α : Type) : Type := List (α × ℚ)

/-- Dictionary lookup in a cooldown ledger. -/
def ledger_lookup {α : Type} [DecidableEq α] : Ledger α → α → Option ℚ
  | [], _ => none
  | (k0, t) :: rest, k => if k0 = k then some t else ledger_lookup rest k

/-- Dictionary assignment `ledger[key] = now`. -/
def ledger_set {α : Type} [DecidableEq α] (l : Ledger α) (k : α) (t : ℚ) :
    Ledger α :=
  (k, t) :: l

/-- The cooldown check performed at the top of every alert sender
(e.g. `send_discord_alert` lines 59-63): the alert is allowed unless a
previous fire is recorded for the key and fewer than `cooldownHours`
hours have elapsed since it.  Elapsed time is
`(now - last).total_seconds() / 3600`. -/
def cooldown_allows {α : Type} [DecidableEq α] (l : Ledger α) (k : α)
    (now cooldownHours : ℚ) : Bool :=
  match ledger_lookup l k with
  | none => true
  | some t => if (now - t) / 3600 < cooldownHours then false else true

/-- `send_discord_alert` from `discord_alert.py` for one call: checks
the signal-alert cooldown for the coin, then the score threshold, then
dispatches; on a successful dispatch (`dispatchOk`) it records the
current time in the ledger and returns `true`, otherwise it leaves the
ledger unchanged and returns `false`. -/
def send_discord_alert (l : Ledger String) (coin : String) (score : ℚ)
    (now cooldownHours threshold : ℚ) (dispatchOk : Bool) :
    Bool × Ledger String :=
  if cooldown_allows l coin now cooldownHours then
    if score < threshold then (false, l)
    else if dispatchOk then (true, ledger_set l coin now)
    else (false, l)
  else (false, l)

/-- The cooldown key built at the top of `send_trailing_stop_alert`
(lines 284-289).  The Python code uses the plain `coin_id` string or a
`(coin_id, subtype)` tuple whose subtype string for ATH drops is
`f"ATH_DROP_{drop_percent}"` — it embeds the formatted value of the
drop percentage itself, and distinct drop values format to distinct
strings, so the key is modelled as carrying the drop value. -/
inductive TSAlertKey where
  | coinOnly (coin : String)
  | athDrop (coin : String) (drop_percent : ℚ)
  | closeBelowEma50 (coin : String)
deriving DecidableEq

/-- Key construction of `send_trailing_stop_alert`: the ATH-drop form
when a drop percentage is passed, else the EMA form when
`close_below_ema` is set, else the bare coin id. -/
def ts_alert_key (coin : String) (drop_percent : Option ℚ)
    (close_below_ema : Bool) : TSAlertKey :=
  match drop_percent with
  | some d => TSAlertKey.athDrop coin d
  | none =>
    if close_below_ema then TSAlertKey.closeBelowEma50 coin
    else TSAlertKey.coinOnly coin

/-- `send_trailing_stop_alert` from `discord_alert.py` for one call:
builds the cooldown key, checks the trailing-stop cooldown, then
dispatches; on a successful dispatch it records the current time under
that key and returns `true`, otherwise it leaves the ledger unchanged
and returns `false`.  (The embed fields built from price/ATH/EMA are
display-only and are not modelled.) -/
def send_trailing_stop_alert (l : Ledger TSAlertKey) (coin : String)
    (drop_percent : Option ℚ) (close_below_ema : Bool)
    (now cooldownHours : ℚ) (dispatchOk : Bool) :
    Bool × Ledger TSAlertKey :=
  let key := ts_alert_key coin drop_percent close_below_ema
  if cooldown_allows l key now cooldownHours then
    if dispatchOk then (true, ledger_set l key now)
    else (false, l)
  else (false, l)

/-! ## Trailing-stop pipeline (`main.py` step 5) -/

/-- One comprehensive-cycle trailing-stop evaluation for one coin, as
wired in `main.py` lines 107-116: run `check_for_trailing_stop`, and
when it fires call `send_trailing_stop_alert` with the matching
arguments (`drop_percent=value` for `ATH_DROP`,
`close_below_ema=True` for `CLOSE_BELOW_EMA50`).  Dispatch is assumed
to succeed.  Returns whether a notification was sent, plus the new
detector state and ledger. -/
def ts_cycle (cfg : TSConfig) (coin : String) (cooldownHours : ℚ)
    (now price : ℚ) (ema50 : Option ℚ) (st : TSState)
    (l : Ledger TSAlertKey) : Bool × TSState × Ledger TSAlertKey :=
  let step := check_for_trailing_stop cfg (some price) ema50 st
  if step.1.fired then
    match step.1.trigger with
    | some TSTrigger.athDrop =>
      let send := send_trailing_stop_alert l coin (some step.1.value) false
        now cooldownHours true
      (send.1, step.2, send.2)
    | some TSTrigger.closeBelowEma50 =>
      let send := send_trailing_stop_alert l coin none true
        now cooldownHours true
      (send.1, step.2, send.2)
    | none => (false, step.2, l)
  else (false, step.2, l)

/-- Number of trailing-stop notifications actually sent over a sequence
of timestamped price observations for one coin. -/
def ts_run (cfg : TSConfig) (coin : String) (cooldownHours : ℚ) :
    List (ℚ × ℚ) → TSState → Ledger TSAlertKey → ℕ
  | [], _, _ => 0
  | (t, p) :: rest, st, l =>
    let c := ts_cycle cfg coin cooldownHours t p none st l
    (if c.1 then 1 else 0) + ts_run cfg coin cooldownHours rest c.2.1 c.2.2

/-! ## Helper lemmas -/

/-- The EMA50-cross section never touches the stored dynamic ATH. -/
theorem ts_ema_step_dynamic_ath (en : Bool) (p : ℚ) (e : Option ℚ)
    (st : TSState) :
    ((ts_ema_step en p e st).2).dynamic_ath = st.dynamic_ath := by
  unfold ts_ema_step
  rcases en <;> rcases e with _ | e0 <;> simp
  rcases st.ema50_pos with _ | pos
  · simp
  · rcases pos <;> simp <;> split <;> simp

/-- Effect of the ATH-drop section on the stored dynamic ATH when one
is already recorded: it is kept, or replaced by a strictly higher
observed price. -/
theorem ts_ath_step_dynamic_ath (th : Option ℚ) (p : ℚ) (st : TSState)
    (a : ℚ) (h : st.dynamic_ath = some a) :
    ((ts_ath_step th p st).2).dynamic_ath = some a ∨
    (((ts_ath_step th p st).2).dynamic_ath = some p ∧ a < p) := by
  unfold ts_ath_step
  rcases th with _ | t
  · simp [h]
  · simp only [h]
    split
    case isTrue hap => right; simp [hap]
    case isFalse hap =>
      left
      split
      · split <;> simp [h]
      · simp [h]

/-- A result returned early from the ATH-drop section is always an
`ATH_DROP` trigger. -/
theorem ts_ath_step_fired_trigger (th : Option ℚ) (p : ℚ) (st : TSState)
    (res : TSResult) (st1 : TSState)
    (h : ts_ath_step th p st = (some res, st1)) :
    res.trigger = some TSTrigger.athDrop := by
  unfold ts_ath_step at h
  rcases th with _ | t
  · simp at h
  · rcases hd : st.dynamic_ath with _ | a <;> simp only [hd] at h <;>
      split_ifs at h <;> simp_all
    all_goals rw [← h.1]

/-- The EMA50-cross section, when enabled and given an EMA value,
always stores the current position. -/
theorem ts_ema_step_sets_pos (p e : ℚ) (st : TSState) :
    ((ts_ema_step true p (some e) st).2).ema50_pos =
      some (if e ≤ p then EmaPos.above else EmaPos.below) := by
  unfold ts_ema_step
  rcases st.ema50_pos with _ | pos
  · simp
  · rcases pos <;> simp <;> split <;> simp_all

/-! ## Claim theorems -/

/-- C1: for every well-formed input combination `score_signal` returns
a value in [0, 100]; when every optional input field is absent it
returns exactly 50 (for any configured weights); and the function is
deterministic — two calls with identical inputs and identical weights
return identical results. -/
theorem score_signal_bounded_neutral_deterministic :
    (∀ (d : MarketData) (s : Sentiment) (m : MacroTrends)
      (h : Option (List ℚ)) (w : SignalWeights),
      0 ≤ score_signal d s m h w ∧ score_signal d s m h w ≤ 100)
    ∧ (∀ w : SignalWeights,
      score_signal emptyMarketData emptySentiment emptyMacroTrends none w = 50)
    ∧ (∀ (d : MarketData) (s : Sentiment) (m : MacroTrends)
      (h : Option (List ℚ)) (w : SignalWeights),
      score_signal d s m h w = score_signal d s m h w) := by
  refine ⟨fun d s m h w => ⟨le_max_left 0 _, max_le (by norm_num) (min_le_left 100 _)⟩,
    fun w => ?_, fun _ _ _ _ _ => rfl⟩
  simp [score_signal, rsi_factor, ema_crossover_factor, ema_price_position_factor,
    bollinger_factor, volume_factor, fgi_factor, google_trends_factor,
    ath_proximity_factor, btc_dominance_factor, emptyMarketData, emptySentiment,
    emptyMacroTrends]
  norm_num

/-- C6 (code bug): the dip-buy detector's fired path can raise instead
of returning true.  At an input with exactly 3 of the 5 conditions met
(RSI 30, 7-sample change -10%, fear/greed 20) but `price`, `ema20` and
the lower Bollinger band absent, the source raises `TypeError` in its
detection log line rather than returning `True`; with fewer than 3
conditions met the function does return `False` exactly as claimed,
and on the module's own dip-buy test data (all logged fields present,
5 of 5 conditions met) the fired path returns `True`. -/
theorem dip_buy_fired_path_raises :
    (dip_conditions_met
        ⟨none, none, some 30, none, none, none, none, some (-10), none⟩
        ⟨some 20, none, none⟩ = 3
      ∧ check_for_dip_buy
        ⟨none, none, some 30, none, none, none, none, some (-10), none⟩
        ⟨some 20, none, none⟩ = PyOutcome.raised)
    ∧ check_for_dip_buy
        ⟨some 120, some 800000000, some 32, some 125, some 130, some 150,
          some ⟨some 140, some 130, some 122⟩, some (-12), some (-25)⟩
        ⟨some 35, none, some 50⟩ = PyOutcome.ok true
    ∧ (∀ (d : MarketData) (s : Sentiment),
      check_for_dip_buy d s = PyOutcome.ok false ↔
        dip_conditions_met d s < 3) := by
  refine ⟨⟨?_, ?_⟩, ?_, ?_⟩
  · norm_num [dip_conditions_met, is_rsi_oversold, is_near_emas,
      is_near_bb_lower, is_recent_dip, is_fgi_fearful]
  · norm_num [check_for_dip_buy, dip_conditions_met, is_rsi_oversold,
      is_near_emas, is_near_bb_lower, is_recent_dip, is_fgi_fearful]
  · norm_num [check_for_dip_buy, dip_conditions_met, is_rsi_oversold,
      is_near_emas, is_near_bb_lower, is_recent_dip, is_fgi_fearful]
  · intro d s
    unfold check_for_dip_buy
    split
    case isTrue h =>
      rw [iff_false_intro (not_lt.mpr h)]
      simp only [iff_false]
      rcases h1 : d.rsi with _ | r <;> rcases h2 : d.price with _ | p <;>
        rcases h3 : d.ema20 with _ | e <;>
        rcases h4 : d.bollinger_bands.bind BollingerBands.lower with _ | l <;>
        rcases h5 : d.price_change_7d_percent with _ | c <;>
        rcases h6 : s.fgi_score with _ | f <;>
        simp [h1, h2, h3, h4, h5, h6] <;> split <;> simp
    case isFalse h =>
      simp [not_le.mp h]

/-- C9: the cooldown gate allows a fire exactly when no prior fire is
recorded for the key, or at least the configured number of hours has
elapsed since the recorded fire; with a 6-hour interval and a fire
recorded at t = 0, a check at t = 5h59m is rejected and a check at
exactly t = 6h00m is allowed. -/
theorem cooldown_gate_spec :
    (∀ {α : Type} [DecidableEq α] (l : Ledger α) (k : α) (now ch : ℚ),
      cooldown_allows l k now ch = true ↔
        (ledger_lookup l k = none ∨
         ∃ t, ledger_lookup l k = some t ∧ ch ≤ (now - t) / 3600))
    ∧ cooldown_allows [("alert", (0 : ℚ))] "alert" (5 * 3600 + 59 * 60) 6 = false
    ∧ cooldown_allows [("alert", (0 : ℚ))] "alert" (6 * 3600) 6 = true := by
  refine ⟨fun {α} _ l k now ch => ?_,
    by norm_num [cooldown_allows, ledger_lookup],
    by norm_num [cooldown_allows, ledger_lookup]⟩
  unfold cooldown_allows
  rcases hl : ledger_lookup l k with _ | t
  · simp
  · simp only [hl, Option.some.injEq, reduceCtorEq, false_or]
    split
    case isTrue hlt =>
      simp only [Bool.false_eq_true, false_iff]
      rintro ⟨t', ht', hle⟩
      rw [← ht'] at hle
      linarith
    case isFalse hge =>
      simp only [true_iff]
      exact ⟨t, rfl, le_of_not_lt hge⟩

/-- C10: every price sequence shorter than the indicator's minimum
length (window+1 samples for RSI, window samples for EMA and for
Bollinger bands) yields an absent indicator, for every window and
every band width; the embedded functions are total, so no exception
and no fabricated number is possible. -/
theorem indicators_short_input_none :
    ∀ (prices : List ℚ) (window : ℕ) (sq : ℚ → ℚ) (k : ℚ),
      (prices.length < window + 1 → calculate_rsi prices window = none)
      ∧ (prices.length < window → calculate_ema prices window = none)
      ∧ (prices.length < window →
          calculate_bollinger_bands sq prices window k = none) := by
  intro prices window sq k
  refine ⟨fun h => ?_, fun h => ?_, fun h => ?_⟩
  · simp [calculate_rsi, h]
  · simp [calculate_ema, h]
  · simp [calculate_bollinger_bands, h]

/-- Witness for C10: three samples are short for RSI(14), EMA(20) and
Bollinger(20); all three indicators come back absent. -/
theorem indicators_short_input_none_witness :
    calculate_rsi [1, 2, 3] 14 = none
    ∧ calculate_ema [1, 2, 3] 20 = none
    ∧ calculate_bollinger_bands id [1, 2, 3] 20 2 = none :=
  ⟨(indicators_short_input_none [1, 2, 3] 14 id 2).1 (by decide),
   (indicators_short_input_none [1, 2, 3] 20 id 2).2.1 (by decide),
   (indicators_short_input_none [1, 2, 3] 20 id 2).2.2 (by decide)⟩

/-- C5 counterexample: with the configured weights (RSI weight 0.15)
and RSI 30, the RSI contribution to the score is 6, which exceeds the
claimed cap of 15 x weight = 2.25. -/
theorem rsi_contribution_cap_counterexample :
    rsi_factor SIGNAL_SCORING_WEIGHTS (some 30) = 6
    ∧ ¬(|rsi_factor SIGNAL_SCORING_WEIGHTS (some 30)| ≤
        15 * SIGNAL_SCORING_WEIGHTS.rsi) := by
  have h : rsi_factor SIGNAL_SCORING_WEIGHTS (some 30) = 6 := by
    norm_num [rsi_factor, SIGNAL_SCORING_WEIGHTS]
  refine ⟨h, ?_⟩
  rw [h, abs_of_nonneg (by norm_num : (0 : ℚ) ≤ 6)]
  norm_num [SIGNAL_SCORING_WEIGHTS]

/-- C5 amended: for RSI in [0,100] and a nonnegative RSI weight, the
RSI contribution has magnitude at most 100 x weight (2·|50-RSI|·weight
exactly; 15 only at the default weight 0.15 and extreme RSI), and its
sign is opposite to RSI's deviation from 50: RSI <= 50 adds, RSI > 50
subtracts. -/
theorem rsi_contribution_bounded :
    ∀ (w : SignalWeights) (r : ℚ), 0 ≤ w.rsi → 0 ≤ r → r ≤ 100 →
      |rsi_factor w (some r)| ≤ 100 * w.rsi
      ∧ (r ≤ 50 → 0 ≤ rsi_factor w (some r))
      ∧ (50 < r → rsi_factor w (some r) ≤ 0) := by
  intro w r hw h0 h100
  have hval : rsi_factor w (some r) =
      if r ≤ 50 then ((50 - r) * (1/2)) * (w.rsi * 100) / 25
      else -(((r - 50) * (1/2)) * (w.rsi * 100) / 25) := rfl
  rw [hval]
  split
  case isTrue hr =>
    have e : ((50 - r) * (1/2)) * (w.rsi * 100) / 25 = 2 * (50 - r) * w.rsi := by
      ring
    rw [e]
    have hnn : 0 ≤ 2 * (50 - r) * w.rsi :=
      mul_nonneg (by linarith) hw
    refine ⟨?_, fun _ => hnn, fun hc => absurd hc (not_lt.mpr hr)⟩
    rw [abs_of_nonneg hnn]
    nlinarith [mul_nonneg h0 hw]
  case isFalse hr =>
    push_neg at hr
    have e : -(((r - 50) * (1/2)) * (w.rsi * 100) / 25) =
        -(2 * (r - 50) * w.rsi) := by
      ring
    rw [e]
    have hnn : 0 ≤ 2 * (r - 50) * w.rsi :=
      mul_nonneg (by linarith) hw
    refine ⟨?_, fun hc => absurd hr (not_lt.mpr hc), fun _ => by linarith⟩
    rw [abs_neg, abs_of_nonneg hnn]
    nlinarith [mul_nonneg (sub_nonneg.mpr h100) hw]

/-- Witness for the amended C5 at RSI 30 with the configured weights:
the contribution is within 100 x weight and nonnegative. -/
theorem rsi_contribution_bounded_witness :
    |rsi_factor SIGNAL_SCORING_WEIGHTS (some 30)| ≤
      100 * SIGNAL_SCORING_WEIGHTS.rsi
    ∧ 0 ≤ rsi_factor SIGNAL_SCORING_WEIGHTS (some 30) :=
  ⟨(rsi_contribution_bounded SIGNAL_SCORING_WEIGHTS 30
      (by norm_num [SIGNAL_SCORING_WEIGHTS]) (by norm_num) (by norm_num)).1,
   (rsi_contribution_bounded SIGNAL_SCORING_WEIGHTS 30
      (by norm_num [SIGNAL_SCORING_WEIGHTS]) (by norm_num) (by norm_num)).2.1
      (by norm_num)⟩

/-- C3: within one continuous state lifetime the stored dynamic ATH is
monotonically non-decreasing — every `check_for_trailing_stop` call
maps a recorded ATH `a` to some `b ≥ a`, and a strict increase only
happens by storing the strictly higher observed price; on the price
sequence [100, 120, 90, 130, 80] the stored ATH trace is
[100, 120, 120, 130, 130]. -/
theorem dynamic_ath_monotone :
    (∀ (cfg : TSConfig) (price ema50 : Option ℚ) (st : TSState) (a : ℚ),
      st.dynamic_ath = some a →
      ∃ b, ((check_for_trailing_stop cfg price ema50 st).2).dynamic_ath = some b
        ∧ a ≤ b ∧ (a < b → price = some b))
    ∧ ath_trace ⟨some 25, false⟩ ⟨none, none⟩ [100, 120, 90, 130, 80]
        = [some 100, some 120, some 120, some 130, some 130] := by
  constructor
  · intro cfg price ema50 st a h
    rcases price with _ | p
    · exact ⟨a, by simp [check_for_trailing_stop, h], le_refl a,
        fun hlt => absurd hlt (lt_irrefl a)⟩
    · have hstep := ts_ath_step_dynamic_ath cfg.percent_drop_from_ath p st a h
      rcases hres : ts_ath_step cfg.percent_drop_from_ath p st with ⟨ores, st1⟩
      rw [hres] at hstep
      simp only [Prod.snd] at hstep
      rcases ores with _ | res
      · have hema := ts_ema_step_dynamic_ath cfg.close_below_50d_ema p ema50 st1
        rcases hstep with h1 | ⟨h2, hlt⟩
        · exact ⟨a, by simp [check_for_trailing_stop, hres, hema, h1],
            le_refl a, fun hc => absurd hc (lt_irrefl a)⟩
        · exact ⟨p, by simp [check_for_trailing_stop, hres, hema, h2],
            le_of_lt hlt, fun _ => rfl⟩
      · rcases hstep with h1 | ⟨h2, hlt⟩
        · exact ⟨a, by simp [check_for_trailing_stop, hres, h1], le_refl a,
            fun hc => absurd hc (lt_irrefl a)⟩
        · exact ⟨p, by simp [check_for_trailing_stop, hres, h2],
            le_of_lt hlt, fun _ => rfl⟩
  · norm_num [ath_trace, check_for_trailing_stop, ts_ath_step, ts_ema_step]

/-- Witness for C3: from a recorded dynamic ATH of 100, observing
price 120 leaves a stored ATH of at least 100. -/
theorem dynamic_ath_monotone_witness :
    ∃ b, ((check_for_trailing_stop ⟨some 25, false⟩ (some 120) none
        ⟨some 100, none⟩).2).dynamic_ath = some b ∧ (100 : ℚ) ≤ b :=
  have h := dynamic_ath_monotone.1 ⟨some 25, false⟩ (some 120) none
    ⟨some 100, none⟩ 100 rfl
  ⟨h.choose, h.choose_spec.1, h.choose_spec.2.1⟩

/-- C4 counterexample: with the EMA50-cross check enabled, price 200
present and EMA50 = 250 available, the current position is BELOW
(200 < 250), yet the cycle in which the ATH-drop sub-check fires (drop
from stored ATH 270 is ≈25.93% ≥ 25%) returns early and leaves the
stored position at ABOVE — the position is not persisted. -/
theorem ema_position_not_persisted_counterexample :
    ((check_for_trailing_stop ⟨some 25, true⟩ (some 200) (some 250)
        ⟨some 270, some EmaPos.above⟩).1).trigger = some TSTrigger.athDrop
    ∧ ((200 : ℚ) < 250)
    ∧ ((check_for_trailing_stop ⟨some 25, true⟩ (some 200) (some 250)
        ⟨some 270, some EmaPos.above⟩).2).ema50_pos ≠ some EmaPos.below := by
  norm_num [check_for_trailing_stop, ts_ath_step, ts_ema_step]
  decide

/-- C4 amended: in every `check_for_trailing_stop` call with the
EMA50-cross check enabled, the price present and EMA50 available, the
current position (ABOVE iff price ≥ EMA50) is stored into the state —
provided the ATH-drop sub-check does not fire in that call (its early
return skips the EMA section). -/
theorem ema_position_persisted_when_ath_not_fired :
    ∀ (cfg : TSConfig) (p e : ℚ) (st : TSState),
      cfg.close_below_50d_ema = true →
      ((check_for_trailing_stop cfg (some p) (some e) st).1).trigger ≠
        some TSTrigger.athDrop →
      ((check_for_trailing_stop cfg (some p) (some e) st).2).ema50_pos =
        some (if e ≤ p then EmaPos.above else EmaPos.below) := by
  intro cfg p e st hen hnt
  rcases hres : ts_ath_step cfg.percent_drop_from_ath p st with ⟨ores, st1⟩
  rcases ores with _ | res
  · have hck : check_for_trailing_stop cfg (some p) (some e) st =
        ts_ema_step cfg.close_below_50d_ema p (some e) st1 := by
      simp [check_for_trailing_stop, hres]
    rw [hck, hen]
    exact ts_ema_step_sets_pos p e st1
  · have hck : check_for_trailing_stop cfg (some p) (some e) st = (res, st1) := by
      simp [check_for_trailing_stop, hres]
    rw [hck] at hnt
    exact absurd (ts_ath_step_fired_trigger _ p st res st1 hres) hnt

/-- Witness for the amended C4: price 300 above the stored ATH 270
(no ATH-drop fire) with EMA50 = 250 stores the ABOVE position. -/
theorem ema_position_persisted_witness :
    ((check_for_trailing_stop ⟨some 25, true⟩ (some 300) (some 250)
        ⟨some 270, some EmaPos.above⟩).2).ema50_pos = some EmaPos.above := by
  have h := ema_position_persisted_when_ath_not_fired ⟨some 25, true⟩ 300 250
    ⟨some 270, some EmaPos.above⟩ rfl
    (by
      norm_num [check_for_trailing_stop, ts_ath_step, ts_ema_step]
      decide)
  rw [if_pos (by norm_num : (250 : ℚ) ≤ 300)] at h
  exact h

/-- C7: with RSI, price, EMA200 (positive) and both percent changes
present, `check_for_top_detection` fires exactly when RSI > 80, price
≥ 1.5 x EMA200, 7-sample change > 50 and 30-sample change > 100; the
intensity is (7d% + 30d%)/200 when fired and 0 otherwise; the
sentiment argument never influences the returned value (extreme greed
does not gate firing). -/
theorem top_detection_spec :
    ∀ (d : MarketData) (s s' : Sentiment) (p r e200 c7 c30 : ℚ),
      d.price = some p → d.rsi = some r → d.ema200 = some e200 →
      d.price_change_7d_percent = some c7 →
      d.price_change_30d_percent = some c30 →
      0 < e200 →
      (((check_for_top_detection d s).1 = true) ↔
        (80 < r ∧ (3/2) * e200 ≤ p ∧ 50 < c7 ∧ 100 < c30))
      ∧ ((check_for_top_detection d s).1 = true →
          (check_for_top_detection d s).2 = (c7 + c30) / 200)
      ∧ ((check_for_top_detection d s).1 = false →
          (check_for_top_detection d s).2 = 0)
      ∧ check_for_top_detection d s = check_for_top_detection d s' := by
  intro d s s' p r e200 c7 c30 hp hr he h7 h30 hpos
  have hdiv : ((3/2 : ℚ) ≤ p / e200) ↔ (3/2) * e200 ≤ p := le_div_iff hpos
  by_cases h1 : 80 < r <;> by_cases h2 : (3/2 : ℚ) * e200 ≤ p <;>
    by_cases h3 : 50 < c7 <;> by_cases h4 : 100 < c30 <;>
    simp [check_for_top_detection, hp, hr, he, h7, h30, hpos, hdiv,
      h1, h2, h3, h4]

/-- Witness for C7: RSI 88, price 250 = 2.5 x EMA200 (100), 7d +60%,
30d +120% fires with intensity (60+120)/200 = 0.9. -/
theorem top_detection_spec_witness :
    (check_for_top_detection
      ⟨some 250, none, some 88, none, none, some 100, none, some 60, some 120⟩
      emptySentiment).1 = true
    ∧ (check_for_top_detection
      ⟨some 250, none, some 88, none, none, some 100, none, some 60, some 120⟩
      emptySentiment).2 = 9/10 := by
  have h := top_detection_spec
    ⟨some 250, none, some 88, none, none, some 100, none, some 60, some 120⟩
    emptySentiment emptySentiment 250 88 100 60 120 rfl rfl rfl rfl rfl
    (by norm_num)
  have hf := h.1.mpr (by norm_num)
  refine ⟨hf, ?_⟩
  rw [h.2.1 hf]
  norm_num

/-- C8: for both embedded alert senders, the cooldown-ledger entry for
the call's key is written (set to the current time) exactly when the
call reports a successful send, which requires the cooldown gate to
allow it (and, for signal alerts, the score to reach the threshold)
and the dispatch to succeed; a gated detection or a failed dispatch
leaves the ledger unchanged. -/
theorem cooldown_ledger_write_iff_dispatch :
    (∀ (l : Ledger String) (coin : String) (score now ch th : ℚ) (ok : Bool),
      ((send_discord_alert l coin score now ch th ok).1 = true ↔
        (cooldown_allows l coin now ch = true ∧ th ≤ score ∧ ok = true))
      ∧ (send_discord_alert l coin score now ch th ok).2 =
          (if (send_discord_alert l coin score now ch th ok).1 then
            ledger_set l coin now else l))
    ∧ (∀ (l : Ledger TSAlertKey) (coin : String) (dp : Option ℚ) (cb ok : Bool)
        (now ch : ℚ),
      ((send_trailing_stop_alert l coin dp cb now ch ok).1 = true ↔
        (cooldown_allows l (ts_alert_key coin dp cb) now ch = true ∧ ok = true))
      ∧ (send_trailing_stop_alert l coin dp cb now ch ok).2 =
          (if (send_trailing_stop_alert l coin dp cb now ch ok).1 then
            ledger_set l (ts_alert_key coin dp cb) now else l)) := by
  constructor
  · intro l coin score now ch th ok
    unfold send_discord_alert
    rcases ok <;> rcases hcd : cooldown_allows l coin now ch <;>
      by_cases hth : score < th <;>
      simp_all [not_lt, le_of_lt]
    rw [if_neg (not_lt.mpr hth)]
    simp
  · intro l coin dp cb ok now ch
    unfold send_trailing_stop_alert
    rcases ok <;>
      rcases hcd : cooldown_allows l (ts_alert_key coin dp cb) now ch <;>
      simp_all

/-- C2 (code bug): with a 25% threshold and stored dynamic ATH 270,
the detector fires at price 200 with drop 700/27 % (≈25.93%) and, on
an unchanged ATH, would fire at price 195 with drop 250/9 % (≈27.78%);
`send_trailing_stop_alert` builds its cooldown key from the exact drop
value, so the two firings use different keys and the 195 firing is NOT
suppressed by the 48-hour cooldown: over the 6-hourly price sequence
[270, 260, 200, 195], two notifications are dispatched instead of
one. -/
theorem trailing_stop_repeat_not_cooldown_gated :
    ((check_for_trailing_stop ⟨some 25, false⟩ (some 200) none
        ⟨some 270, none⟩).1 = ⟨true, some TSTrigger.athDrop, 700/27⟩)
    ∧ ((check_for_trailing_stop ⟨some 25, false⟩ (some 195) none
        ⟨some 270, none⟩).1 = ⟨true, some TSTrigger.athDrop, 250/9⟩)
    ∧ ts_alert_key "solana" (some (700/27)) false ≠
        ts_alert_key "solana" (some (250/9)) false
    ∧ ts_run ⟨some 25, false⟩ "solana" 48
        [(0, 270), (21600, 260), (43200, 200), (64800, 195)]
        ⟨some 270, none⟩ [] = 2 := by
  refine ⟨?_, ?_, ?_, ?_⟩
  · norm_num [check_for_trailing_stop, ts_ath_step, ts_ema_step]
  · norm_num [check_for_trailing_stop, ts_ath_step, ts_ema_step]
  · norm_num [ts_alert_key]
  · norm_num [ts_run, ts_cycle, check_for_trailing_stop, ts_ath_step,
      ts_ema_step, send_trailing_stop_alert, ts_alert_key, cooldown_allows,
      ledger_lookup, ledger_set]
